import Mathlib

/-!
Shallow embedding of the homare contracts (TaskRegistry.sol, PayoutSplitter.sol,
VerifierGateway.sol). Addresses and uint256 values are modelled as `Nat`
(Solidity 0.8 checked arithmetic never wraps; every arithmetic step below is
reached only in ranges where the checked operations do not revert). Mappings
are total functions returning the zero-initialised struct, exactly as Solidity
storage does. A reverting call is `Except.error msg` with the source's require
message; on error no state is returned, matching the all-or-nothing revert.
-/

namespace Homare

/-- Task categories, from `TaskRegistry.TaskCategory`. -/
inductive TaskCategory
  | SWAP
  | BRIDGE
  | SOCIAL
  | DEFI
  | NFT
  | CUSTOM
deriving DecidableEq

/-- Task status, from `TaskRegistry.TaskStatus`. -/
inductive TaskStatus
  | ACTIVE
  | PAUSED
  | COMPLETED
  | CANCELLED
deriving DecidableEq

/-- `TaskRegistry.Task` struct. -/
structure Task where
  id : Nat
  advertiser : Nat
  name : String
  description : String
  category : TaskCategory
  status : TaskStatus
  rewardAmount : Nat
  rewardToken : Nat
  maxParticipants : Nat
  currentParticipants : Nat
  startTime : Nat
  endTime : Nat
  verificationCriteria : String
  requiresKYC : Bool
  sybilThreshold : Nat
deriving DecidableEq

/-- The zero-initialised `Task`, what an unwritten mapping slot reads as.
Enum zero values are the first members (`SWAP`, `ACTIVE`). -/
def emptyTask : Task :=
  { id := 0, advertiser := 0, name := "", description := "",
    category := TaskCategory.SWAP, status := TaskStatus.ACTIVE,
    rewardAmount := 0, rewardToken := 0, maxParticipants := 0,
    currentParticipants := 0, startTime := 0, endTime := 0,
    verificationCriteria := "", requiresKYC := false, sybilThreshold := 0 }

/-- `TaskRegistry.TaskCompletion` struct. -/
structure TaskCompletion where
  user : Nat
  taskId : Nat
  completed : Bool
  verified : Bool
  completionTime : Nat
  proofData : String
  sybilScore : Nat
deriving DecidableEq

/-- The zero-initialised `TaskCompletion`. -/
def emptyCompletion : TaskCompletion :=
  { user := 0, taskId := 0, completed := false, verified := false,
    completionTime := 0, proofData := "", sybilScore := 0 }

/-- The storage of the `TaskRegistry` contract. -/
structure TaskRegistryState where
  owner : Nat
  nextTaskId : Nat
  tasks : Nat → Task
  taskCompletions : Nat → Nat → TaskCompletion
  userCompletedTasks : Nat → List Nat
  userTotalEarnings : Nat → Nat
  verificationOracle : Nat
  payoutSplitter : Nat
  supportedTokens : Nat → Bool

/-- `TaskRegistry` constructor. -/
def mkTaskRegistry (deployer oracle splitter : Nat) : TaskRegistryState :=
  { owner := deployer, nextTaskId := 1, tasks := fun _ => emptyTask,
    taskCompletions := fun _ _ => emptyCompletion,
    userCompletedTasks := fun _ => [], userTotalEarnings := fun _ => 0,
    verificationOracle := oracle, payoutSplitter := splitter,
    supportedTokens := fun _ => false }

/-- `TaskRegistry.addSupportedToken` (onlyOwner). -/
def addSupportedToken (s : TaskRegistryState) (sender token : Nat) :
    Except String TaskRegistryState :=
  if sender ≠ s.owner then Except.error "OwnableUnauthorizedAccount"
  else Except.ok { s with
    supportedTokens := fun a => if a = token then true else s.supportedTokens a }

/-- `TaskRegistry.createTask` (onlyOwner). `timestamp` is `block.timestamp`.
Returns the fresh task id together with the updated storage. -/
def createTask (s : TaskRegistryState) (sender timestamp : Nat)
    (name description : String) (category : TaskCategory)
    (rewardAmount rewardToken maxParticipants duration : Nat)
    (verificationCriteria : String) (requiresKYC : Bool)
    (sybilThreshold : Nat) : Except String (Nat × TaskRegistryState) :=
  if sender ≠ s.owner then Except.error "OwnableUnauthorizedAccount"
  else if ¬ (rewardAmount > 0) then Except.error "Reward amount must be greater than 0"
  else if rewardToken = 0 then Except.error "Invalid reward token address"
  else if ¬ (s.supportedTokens rewardToken) then Except.error "Reward token not supported"
  else if ¬ (maxParticipants > 0) then Except.error "Max participants must be greater than 0"
  else if ¬ (duration > 0) then Except.error "Duration must be greater than 0"
  else
    let taskId := s.nextTaskId
    let task : Task :=
      { id := taskId, advertiser := sender, name := name, description := description,
        category := category, status := TaskStatus.ACTIVE,
        rewardAmount := rewardAmount, rewardToken := rewardToken,
        maxParticipants := maxParticipants, currentParticipants := 0,
        startTime := timestamp, endTime := timestamp + duration,
        verificationCriteria := verificationCriteria, requiresKYC := requiresKYC,
        sybilThreshold := sybilThreshold }
    Except.ok (taskId, { s with
      nextTaskId := s.nextTaskId + 1,
      tasks := fun i => if i = taskId then task else s.tasks i })

/-- `TaskRegistry.completeTask` (called by a participant; `sender` is
`msg.sender`, `timestamp` is `block.timestamp`). -/
def completeTask (s : TaskRegistryState) (sender timestamp taskId : Nat)
    (proofData : String) : Except String TaskRegistryState :=
  let task := s.tasks taskId
  if task.status ≠ TaskStatus.ACTIVE then Except.error "Task is not active"
  else if ¬ (task.startTime ≤ timestamp ∧ timestamp ≤ task.endTime) then
    Except.error "Task not in valid time range"
  else if ¬ (task.currentParticipants < task.maxParticipants) then
    Except.error "Task is full"
  else if (s.taskCompletions taskId sender).completed then
    Except.error "Task already completed by user"
  else
    let completion : TaskCompletion :=
      { user := sender, taskId := taskId, completed := true, verified := false,
        completionTime := timestamp, proofData := proofData, sybilScore := 0 }
    Except.ok { s with
      taskCompletions := fun t u =>
        if t = taskId ∧ u = sender then completion else s.taskCompletions t u,
      tasks := fun i => if i = taskId then
        { task with currentParticipants := task.currentParticipants + 1 }
        else s.tasks i,
      userCompletedTasks := fun u => if u = sender then
        s.userCompletedTasks u ++ [taskId] else s.userCompletedTasks u }

/-- `TaskRegistry._triggerPayout`: "For now, we'll update the user's total
earnings" — it simply adds the task's reward to the user's earnings, with no
record of having paid before. -/
def triggerPayout (s : TaskRegistryState) (taskId user : Nat) : TaskRegistryState :=
  { s with userTotalEarnings := fun u => if u = user then
      s.userTotalEarnings u + (s.tasks taskId).rewardAmount
      else s.userTotalEarnings u }

/-- `TaskRegistry.verifyTaskCompletion` (called by the verification oracle). -/
def verifyTaskCompletion (s : TaskRegistryState) (sender taskId user : Nat)
    (verified : Bool) (sybilScore : Nat) : Except String TaskRegistryState :=
  if sender ≠ s.verificationOracle then
    Except.error "Only verification oracle can verify"
  else if ¬ (s.taskCompletions taskId user).completed then
    Except.error "Task not completed by user"
  else
    let completion := s.taskCompletions taskId user
    let s1 : TaskRegistryState := { s with
      taskCompletions := fun t u => if t = taskId ∧ u = user then
        { completion with verified := verified, sybilScore := sybilScore }
        else s.taskCompletions t u }
    if verified ∧ sybilScore ≥ (s.tasks taskId).sybilThreshold then
      Except.ok (triggerPayout s1 taskId user)
    else
      Except.ok s1

/-- `TaskRegistry.updateTaskStatus` (onlyOwner). -/
def updateTaskStatus (s : TaskRegistryState) (sender taskId : Nat)
    (newStatus : TaskStatus) : Except String TaskRegistryState :=
  if sender ≠ s.owner then Except.error "OwnableUnauthorizedAccount"
  else if ¬ (taskId < s.nextTaskId) then Except.error "Task does not exist"
  else Except.ok { s with
    tasks := fun i => if i = taskId then
      { s.tasks i with status := newStatus } else s.tasks i }

/-- `PayoutSplitter.TASK_COMPLETER_PERCENT` (basis points). -/
def TASK_COMPLETER_PERCENT : Nat := 6000

/-- `PayoutSplitter.DIRECT_REFERRER_PERCENT` (basis points). -/
def DIRECT_REFERRER_PERCENT : Nat := 2500

/-- `PayoutSplitter.INDIRECT_REFERRER_PERCENT` (basis points). -/
def INDIRECT_REFERRER_PERCENT : Nat := 1500

/-- `PayoutSplitter.PLATFORM_FEE_PERCENT` (basis points). -/
def PLATFORM_FEE_PERCENT : Nat := 1000

/-- `PayoutSplitter.MAX_REFERRAL_LEVELS`. -/
def MAX_REFERRAL_LEVELS : Nat := 3

/-- `PayoutSplitter.ReferralData` struct. `indirectReferrers` is the stored
dynamic array (empty for a never-registered user; length 3 after
`registerWithReferral`, with zero entries for absent tiers). -/
structure ReferralData where
  directReferrer : Nat
  indirectReferrers : List Nat
  isActive : Bool
  totalEarnings : Nat
  directEarnings : Nat
  indirectEarnings : Nat
deriving DecidableEq

/-- The zero-initialised `ReferralData`. -/
def emptyReferralData : ReferralData :=
  { directReferrer := 0, indirectReferrers := [], isActive := false,
    totalEarnings := 0, directEarnings := 0, indirectEarnings := 0 }

/-- `PayoutSplitter.PayoutDistribution` struct. -/
structure PayoutDistribution where
  taskCompleterReward : Nat
  directReferrerReward : Nat
  indirectReferrerReward : Nat
  platformFee : Nat
deriving DecidableEq

/-- `PayoutSplitter._calculateDistribution`: each share is
`totalReward * weight / 10000` with integer (floor) division. -/
def calculateDistribution (totalReward : Nat) : PayoutDistribution :=
  { taskCompleterReward := totalReward * TASK_COMPLETER_PERCENT / 10000,
    directReferrerReward := totalReward * DIRECT_REFERRER_PERCENT / 10000,
    indirectReferrerReward := totalReward * INDIRECT_REFERRER_PERCENT / 10000,
    platformFee := totalReward * PLATFORM_FEE_PERCENT / 10000 }

/-- The storage of the `PayoutSplitter` contract. `poolBalance token` is the
ERC20 balance the contract itself holds in `token`
(`token.balanceOf(address(this))`). -/
structure PayoutSplitterState where
  owner : Nat
  referrals : Nat → ReferralData
  registeredUsers : Nat → Bool
  taskRegistry : Nat
  platformWallet : Nat
  supportedTokens : Nat → Bool
  poolBalance : Nat → Nat

/-- `PayoutSplitter` constructor (the pool starts empty; tokens reach the
contract by external ERC20 transfers, modelled by setting `poolBalance`). -/
def mkPayoutSplitter (deployer registry wallet : Nat) : PayoutSplitterState :=
  { owner := deployer, referrals := fun _ => emptyReferralData,
    registeredUsers := fun _ => false, taskRegistry := registry,
    platformWallet := wallet, supportedTokens := fun _ => false,
    poolBalance := fun _ => 0 }

/-- `token.safeTransfer(to, amount)` out of the splitter's pool: reverts when
the pool balance of `token` is short, otherwise debits the pool. Recipient
balances are external to the contract and are tracked by the transfer log. -/
def poolTransfer (s : PayoutSplitterState) (token amount : Nat) :
    Except String PayoutSplitterState :=
  if amount ≤ s.poolBalance token then
    Except.ok { s with poolBalance := fun a =>
      if a = token then s.poolBalance a - amount else s.poolBalance a }
  else Except.error "ERC20InsufficientBalance"

/-- Credit `totalEarnings` (+ `directEarnings`) of a direct referrer. -/
def creditDirect (s : PayoutSplitterState) (who amount : Nat) : PayoutSplitterState :=
  { s with referrals := fun a => if a = who then
      { s.referrals a with
        totalEarnings := (s.referrals a).totalEarnings + amount,
        directEarnings := (s.referrals a).directEarnings + amount }
      else s.referrals a }

/-- Credit `totalEarnings` (+ `indirectEarnings`) of an indirect referrer. -/
def creditIndirect (s : PayoutSplitterState) (who amount : Nat) : PayoutSplitterState :=
  { s with referrals := fun a => if a = who then
      { s.referrals a with
        totalEarnings := (s.referrals a).totalEarnings + amount,
        indirectEarnings := (s.referrals a).indirectEarnings + amount }
      else s.referrals a }

/-- Credit only `totalEarnings` (used for the task completer). -/
def creditTotal (s : PayoutSplitterState) (who amount : Nat) : PayoutSplitterState :=
  { s with referrals := fun a => if a = who then
      { s.referrals a with
        totalEarnings := (s.referrals a).totalEarnings + amount }
      else s.referrals a }

/-- The `for` loop of `distributePayout` over `indirectReferrers`: transfers
`per` to each nonzero entry and credits its earnings; zero entries are
skipped entirely. Returns the updated state and the transfer log
(recipient, amount) in order. -/
def payIndirectLevels (s : PayoutSplitterState) (token per : Nat) :
    List Nat → List (Nat × Nat) → Except String (PayoutSplitterState × List (Nat × Nat))
  | [], log => Except.ok (s, log)
  | r :: rest, log =>
    if r ≠ 0 then
      match poolTransfer s token per with
      | Except.error e => Except.error e
      | Except.ok s1 => payIndirectLevels (creditIndirect s1 r per) token per rest (log ++ [(r, per)])
    else payIndirectLevels s token per rest log

/-- `PayoutSplitter.distributePayout`. Returns the updated storage together
with the ordered log of ERC20 transfers performed, so that "total disbursed"
is the sum of the log's amounts. -/
def distributePayout (s : PayoutSplitterState) (sender taskCompleter _taskId totalReward tokenAddress : Nat) :
    Except String (PayoutSplitterState × List (Nat × Nat)) :=
  if sender ≠ s.taskRegistry then Except.error "Only task registry can trigger payout"
  else if ¬ (s.supportedTokens tokenAddress) then Except.error "Token not supported"
  else if ¬ (totalReward > 0) then Except.error "Invalid reward amount"
  else if ¬ (s.poolBalance tokenAddress ≥ totalReward) then
    Except.error "Insufficient contract balance"
  else
    let distribution := calculateDistribution totalReward
    let referrerData := s.referrals taskCompleter
    -- task completer share
    (if distribution.taskCompleterReward > 0 then
      match poolTransfer s tokenAddress distribution.taskCompleterReward with
      | Except.error e => Except.error e
      | Except.ok s1 =>
        Except.ok (creditTotal s1 taskCompleter distribution.taskCompleterReward,
          [(taskCompleter, distribution.taskCompleterReward)])
     else Except.ok (s, [])).bind fun p1 =>
    -- direct referrer share
    (if referrerData.directReferrer ≠ 0 ∧ distribution.directReferrerReward > 0 then
      match poolTransfer p1.1 tokenAddress distribution.directReferrerReward with
      | Except.error e => Except.error e
      | Except.ok s2 =>
        Except.ok (creditDirect s2 referrerData.directReferrer distribution.directReferrerReward,
          p1.2 ++ [(referrerData.directReferrer, distribution.directReferrerReward)])
     else Except.ok p1).bind fun p2 =>
    -- indirect referrer shares
    (if distribution.indirectReferrerReward > 0 then
      payIndirectLevels p2.1 tokenAddress
        (distribution.indirectReferrerReward / MAX_REFERRAL_LEVELS)
        referrerData.indirectReferrers p2.2
     else Except.ok p2).bind fun p3 =>
    -- platform fee
    (if distribution.platformFee > 0 then
      match poolTransfer p3.1 tokenAddress distribution.platformFee with
      | Except.error e => Except.error e
      | Except.ok s4 => Except.ok (s4, p3.2 ++ [(s.platformWallet, distribution.platformFee)])
     else Except.ok p3)

/-- Total amount actually disbursed by a transfer log. -/
def totalDisbursed (log : List (Nat × Nat)) : Nat :=
  (log.map Prod.snd).sum

/-- `VerifierGateway.VerificationType`. -/
inductive VerificationType
  | ONCHAIN_TRANSACTION
  | OFFCHAIN_SOCIAL
  | OFFCHAIN_GITHUB
  | OFFCHAIN_DISCORD
  | CUSTOM_ORACLE
deriving DecidableEq

/-- `VerifierGateway.VerificationResult` struct. -/
structure VerificationResult where
  verified : Bool
  sybilScore : Nat
  proofHash : String
  timestamp : Nat
  verifier : Nat
deriving DecidableEq

/-- The zero-initialised `VerificationResult` (the "unset" sentinel). -/
def emptyResult : VerificationResult :=
  { verified := false, sybilScore := 0, proofHash := "", timestamp := 0,
    verifier := 0 }

/-- `VerifierGateway.VerificationRequest` struct. -/
structure VerificationRequest where
  taskId : Nat
  user : Nat
  verificationType : VerificationType
  proofData : String
  processed : Bool
  result : VerificationResult
deriving DecidableEq

/-- The zero-initialised `VerificationRequest`, what an unallocated mapping
slot reads as (enum zero value is `ONCHAIN_TRANSACTION`). -/
def emptyRequest : VerificationRequest :=
  { taskId := 0, user := 0, verificationType := VerificationType.ONCHAIN_TRANSACTION,
    proofData := "", processed := false, result := emptyResult }

/-- The storage of the `VerifierGateway` contract. -/
structure VerifierGatewayState where
  owner : Nat
  verificationRequests : Nat → VerificationRequest
  authorizedOracles : Nat → Bool
  oracleAddresses : VerificationType → Nat
  oracleNonces : Nat → Nat
  nextRequestId : Nat
  taskRegistry : Nat

/-- `VerifierGateway` constructor. -/
def mkVerifierGateway (deployer registry : Nat) : VerifierGatewayState :=
  { owner := deployer, verificationRequests := fun _ => emptyRequest,
    authorizedOracles := fun _ => false, oracleAddresses := fun _ => 0,
    oracleNonces := fun _ => 0, nextRequestId := 1, taskRegistry := registry }

/-- `VerifierGateway.registerOracle` (onlyOwner): marks the oracle authorized
and points the verification type's slot at it. -/
def registerOracle (s : VerifierGatewayState) (sender oracle : Nat)
    (verificationType : VerificationType) : Except String VerifierGatewayState :=
  if sender ≠ s.owner then Except.error "OwnableUnauthorizedAccount"
  else if oracle = 0 then Except.error "Invalid oracle address"
  else Except.ok { s with
    authorizedOracles := fun a => if a = oracle then true else s.authorizedOracles a,
    oracleAddresses := fun vt => if vt = verificationType then oracle
      else s.oracleAddresses vt }

/-- `VerifierGateway.requestVerification` (only the task registry): allocates
a fresh request id, stores the request unprocessed with the sentinel result,
and returns the id. -/
def requestVerification (s : VerifierGatewayState) (sender taskId user : Nat)
    (verificationType : VerificationType) (proofData : String) :
    Except String (Nat × VerifierGatewayState) :=
  if sender ≠ s.taskRegistry then
    Except.error "Only task registry can request verification"
  else if s.oracleAddresses verificationType = 0 then
    Except.error "No oracle for verification type"
  else
    let requestId := s.nextRequestId
    let request : VerificationRequest :=
      { taskId := taskId, user := user, verificationType := verificationType,
        proofData := proofData, processed := false, result := emptyResult }
    Except.ok (requestId, { s with
      nextRequestId := s.nextRequestId + 1,
      verificationRequests := fun i => if i = requestId then request
        else s.verificationRequests i })

/-- `VerifierGateway.completeVerification` (called by an oracle; `sender` is
`msg.sender`, `timestamp` is `block.timestamp`). The guards are, in source
order: caller is in `authorizedOracles`; `requestId < nextRequestId`; request
not yet processed; `0 <= sybilScore <= 100`. On success it marks the request
processed, records the result, and bumps the caller's nonce. -/
def completeVerification (s : VerifierGatewayState) (sender timestamp requestId : Nat)
    (verified : Bool) (sybilScore : Nat) (proofHash : String) :
    Except String VerifierGatewayState :=
  if ¬ (s.authorizedOracles sender) then
    Except.error "Only authorized oracles can complete verification"
  else if ¬ (requestId < s.nextRequestId) then
    Except.error "Invalid request ID"
  else if (s.verificationRequests requestId).processed then
    Except.error "Request already processed"
  else if ¬ (0 ≤ sybilScore ∧ sybilScore ≤ 100) then
    Except.error "Invalid sybil score"
  else
    let request := s.verificationRequests requestId
    let result : VerificationResult :=
      { verified := verified, sybilScore := sybilScore, proofHash := proofHash,
        timestamp := timestamp, verifier := sender }
    Except.ok { s with
      verificationRequests := fun i => if i = requestId then
        { request with processed := true, result := result }
        else s.verificationRequests i,
      oracleNonces := fun a => if a = sender then s.oracleNonces a + 1
        else s.oracleNonces a }

/-- Unwrap an `Except`, with a default for the (unreached) error case. -/
def getOkD {α : Type} (r : Except String α) (d : α) : α :=
  match r with
  | Except.ok a => a
  | Except.error _ => d

/-!
Concrete scenario used throughout: owner/deployer 1, verification oracle 2,
payout splitter 3, reward token 5, participant 10. The owner allow-lists
token 5 and creates task 1 at time 100: reward 100, cap 1, duration 1000,
sybil threshold 50.
-/

/-- Registry storage after deployment, token allow-listing and task creation. -/
def regReady : TaskRegistryState :=
  getOkD
    ((addSupportedToken (mkTaskRegistry 1 2 3) 1 5).bind fun s1 =>
      (createTask s1 1 100 "promo" "desc" TaskCategory.SOCIAL 100 5 1 1000
        "crit" false 50).map Prod.snd)
    (mkTaskRegistry 1 2 3)

/-- Registry storage after participant 10 submits a completion for task 1. -/
def regDone : TaskRegistryState :=
  getOkD (completeTask regReady 10 100 1 "proof") regReady

/-- The registry after the oracle delivers (verified := true, score 80)
for (task 1, participant 10) once. -/
def regAfterOneVerdict : Except String TaskRegistryState :=
  verifyTaskCompletion regDone 2 1 10 true 80

/-- The registry after the very same verdict is delivered a second time. -/
def regAfterTwoVerdicts : Except String TaskRegistryState :=
  regAfterOneVerdict.bind fun s => verifyTaskCompletion s 2 1 10 true 80

/-!
Gateway scenario: deployer/owner 1, task registry 7. Oracle 20 is registered
for `OFFCHAIN_SOCIAL`, oracle 30 for `ONCHAIN_TRANSACTION`; the registry then
files request 1 of category `OFFCHAIN_SOCIAL`.
-/

/-- Gateway storage with the two oracles registered and no request yet. -/
def gwReady : VerifierGatewayState :=
  getOkD
    ((registerOracle (mkVerifierGateway 1 7) 1 20 VerificationType.OFFCHAIN_SOCIAL).bind
      fun s => registerOracle s 1 30 VerificationType.ONCHAIN_TRANSACTION)
    (mkVerifierGateway 1 7)

/-- Gateway storage after the registry files request 1 (`OFFCHAIN_SOCIAL`). -/
def gwWithRequest : VerifierGatewayState :=
  getOkD
    ((requestVerification gwReady 7 1 10 VerificationType.OFFCHAIN_SOCIAL "p").map
      Prod.snd)
    gwReady

/-- Gateway storage after oracle 20 delivers the verdict for request 1. -/
def gwProcessed : VerifierGatewayState :=
  getOkD (completeVerification gwWithRequest 20 500 1 true 60 "digest") gwWithRequest

/-- Registry storage after the owner marks task 1 `COMPLETED`. -/
def regCompleted : TaskRegistryState :=
  getOkD (updateTaskStatus regDone 1 1 TaskStatus.COMPLETED) regDone

/-- Concrete splitter: owner 1, task registry 7, platform wallet 9; token 5
is supported and the contract holds 100000 units of it. No referral record
has been registered for anyone. -/
def splitterReady : PayoutSplitterState :=
  { mkPayoutSplitter 1 7 9 with
      supportedTokens := fun a => if a = 5 then true else false,
      poolBalance := fun a => if a = 5 then 100000 else 0 }

/-- C1: a completion exists for (task 1, participant 10); the task's reward is
100 and its sybil threshold is 50. A qualifying verdict (true, 80) credits
earnings of 100; delivering the identical verdict a second time is accepted
again and credits a further 100, for a total of 200 — `verifyTaskCompletion`
has no one-shot latch, so a duplicate verdict pays twice. A non-qualifying
verdict (true, 40) credits nothing. -/
theorem c1_duplicate_verdict_pays_twice :
    (regDone.taskCompletions 1 10).completed = true
    ∧ (regDone.tasks 1).rewardAmount = 100
    ∧ (regDone.tasks 1).sybilThreshold = 50
    ∧ (verifyTaskCompletion regDone 2 1 10 true 40).map
        (fun s => s.userTotalEarnings 10) = Except.ok 0
    ∧ regAfterOneVerdict.map (fun s => s.userTotalEarnings 10) = Except.ok 100
    ∧ regAfterTwoVerdicts.map (fun s => s.userTotalEarnings 10) = Except.ok 200 := by
  refine ⟨rfl, rfl, rfl, rfl, rfl, rfl⟩

/-- C2: for gross amount 10000, the four shares computed by
`_calculateDistribution` sum to 11000, not to the gross amount — the claimed
conservation invariant fails on the code as written. -/
theorem c2_shares_do_not_sum_to_gross :
    (calculateDistribution 10000).taskCompleterReward
      + (calculateDistribution 10000).directReferrerReward
      + (calculateDistribution 10000).indirectReferrerReward
      + (calculateDistribution 10000).platformFee = 11000 := by
  rfl

/-- C3: the four basis-point weights declared in `PayoutSplitter` sum to
11000, not to the 10000 basis points (100%) the claim (and the contract's own
comment "10000 = 100%") requires. -/
theorem c3_weights_sum_to_11000 :
    TASK_COMPLETER_PERCENT + DIRECT_REFERRER_PERCENT
      + INDIRECT_REFERRER_PERCENT + PLATFORM_FEE_PERCENT = 11000 := by
  rfl

/-- C7: for a task that is Active, within its time window, and satisfying the
`currentParticipants ≤ maxParticipants` invariant: `completeTask` fails with
the task-full error exactly when the participant count equals the cap; when
the task is not full it fails with the duplicate error exactly when a
completion already exists for (taskId, sender); and otherwise it succeeds,
creating the completion with `verified = false` and incrementing the
participant count by one. -/
theorem c7_completeTask_characterization
    (s : TaskRegistryState) (sender t taskId : Nat) (proofData : String)
    (hactive : (s.tasks taskId).status = TaskStatus.ACTIVE)
    (hwin1 : (s.tasks taskId).startTime ≤ t)
    (hwin2 : t ≤ (s.tasks taskId).endTime)
    (hinv : (s.tasks taskId).currentParticipants ≤ (s.tasks taskId).maxParticipants) :
    (completeTask s sender t taskId proofData = Except.error "Task is full"
        ↔ (s.tasks taskId).currentParticipants = (s.tasks taskId).maxParticipants)
    ∧ ((s.tasks taskId).currentParticipants < (s.tasks taskId).maxParticipants →
        (s.taskCompletions taskId sender).completed = true →
        completeTask s sender t taskId proofData
          = Except.error "Task already completed by user")
    ∧ ((s.tasks taskId).currentParticipants < (s.tasks taskId).maxParticipants →
        (s.taskCompletions taskId sender).completed = false →
        ∃ s2, completeTask s sender t taskId proofData = Except.ok s2
          ∧ (s2.taskCompletions taskId sender).completed = true
          ∧ (s2.taskCompletions taskId sender).verified = false
          ∧ (s2.tasks taskId).currentParticipants
              = (s.tasks taskId).currentParticipants + 1) := by
  have hred : completeTask s sender t taskId proofData =
      (if ¬ ((s.tasks taskId).currentParticipants < (s.tasks taskId).maxParticipants) then
        Except.error "Task is full"
      else if (s.taskCompletions taskId sender).completed then
        Except.error "Task already completed by user"
      else
        Except.ok { s with
          taskCompletions := fun t2 u =>
            if t2 = taskId ∧ u = sender then
              { user := sender, taskId := taskId, completed := true,
                verified := false, completionTime := t, proofData := proofData,
                sybilScore := 0 }
            else s.taskCompletions t2 u,
          tasks := fun i => if i = taskId then
            { s.tasks taskId with
              currentParticipants := (s.tasks taskId).currentParticipants + 1 }
            else s.tasks i,
          userCompletedTasks := fun u => if u = sender then
            s.userCompletedTasks u ++ [taskId] else s.userCompletedTasks u }) := by
    unfold completeTask
    rw [if_neg (by simp [hactive]), if_neg (by simp [hwin1, hwin2])]
  by_cases hfull : (s.tasks taskId).currentParticipants < (s.tasks taskId).maxParticipants
  · rw [hred, if_neg (by simpa using hfull)]
    by_cases hdup : (s.taskCompletions taskId sender).completed
    · rw [if_pos hdup]
      refine ⟨?_, fun _ _ => rfl, fun _ hc => ?_⟩
      · constructor
        · intro h
          exact absurd (Except.error.inj h) (by decide)
        · intro h
          omega
      · rw [hdup] at hc
        exact absurd hc (by decide)
    · rw [if_neg hdup]
      refine ⟨?_, fun _ hc => ?_, fun _ _ => ?_⟩
      · constructor
        · intro h
          exact absurd h (by intro h2; cases h2)
        · intro h
          omega
      · rw [hc] at hdup
        exact absurd rfl hdup
      · refine ⟨_, rfl, ?_, ?_, ?_⟩ <;> simp
  · rw [hred, if_pos (by simpa using hfull)]
    have heq : (s.tasks taskId).currentParticipants = (s.tasks taskId).maxParticipants := by
      omega
    exact ⟨by simp [heq], fun h _ => absurd h (by omega),
      fun h _ => absurd h (by omega)⟩

/-- C7 witness: the characterization instantiated at the concrete scenario
state `regReady` (task 1: Active, window [100, 1100], cap 1, no completions),
participant 10 submitting at time 100. -/
theorem c7_witness :
    (completeTask regReady 10 100 1 "proof" = Except.error "Task is full"
        ↔ (regReady.tasks 1).currentParticipants = (regReady.tasks 1).maxParticipants)
    ∧ ((regReady.tasks 1).currentParticipants < (regReady.tasks 1).maxParticipants →
        (regReady.taskCompletions 1 10).completed = true →
        completeTask regReady 10 100 1 "proof"
          = Except.error "Task already completed by user")
    ∧ ((regReady.tasks 1).currentParticipants < (regReady.tasks 1).maxParticipants →
        (regReady.taskCompletions 1 10).completed = false →
        ∃ s2, completeTask regReady 10 100 1 "proof" = Except.ok s2
          ∧ (s2.taskCompletions 1 10).completed = true
          ∧ (s2.taskCompletions 1 10).verified = false
          ∧ (s2.tasks 1).currentParticipants
              = (regReady.tasks 1).currentParticipants + 1) :=
  c7_completeTask_characterization regReady 10 100 1 "proof" rfl (by decide)
    (by decide) (by decide)

/-- C8 counterexample: task 1 is in the terminal status `COMPLETED`, yet the
administrative `updateTaskStatus` sets it straight back to `ACTIVE` — the
terminal states accept further transitions. -/
theorem c8_counterexample_terminal_escaped :
    (regCompleted.tasks 1).status = TaskStatus.COMPLETED
    ∧ (updateTaskStatus regCompleted 1 1 TaskStatus.ACTIVE).map
        (fun s => (s.tasks 1).status) = Except.ok TaskStatus.ACTIVE := by
  exact ⟨rfl, rfl⟩

/-- C8 amended: `updateTaskStatus` performs no transition check at all — for
any existing task id (any id below `nextTaskId`) and any requested status,
the owner's call succeeds and overwrites the status with the requested value,
regardless of the current status (terminal or not), leaving every other field
and every other task unchanged. -/
theorem c8_updateTaskStatus_unrestricted
    (s : TaskRegistryState) (sender taskId : Nat) (newStatus : TaskStatus)
    (hown : sender = s.owner) (hex : taskId < s.nextTaskId) :
    updateTaskStatus s sender taskId newStatus = Except.ok { s with
      tasks := fun i => if i = taskId then
        { s.tasks i with status := newStatus } else s.tasks i } := by
  unfold updateTaskStatus
  rw [if_neg (by simp [hown]), if_neg (by simpa using hex)]

/-- C8 witness: the amended statement at the concrete terminal state
`regCompleted`: the owner resurrects the `COMPLETED` task 1 to `ACTIVE`. -/
theorem c8_witness :
    updateTaskStatus regCompleted 1 1 TaskStatus.ACTIVE = Except.ok { regCompleted with
      tasks := fun i => if i = 1 then
        { regCompleted.tasks i with status := TaskStatus.ACTIVE }
        else regCompleted.tasks i } :=
  c8_updateTaskStatus_unrestricted regCompleted 1 1 TaskStatus.ACTIVE rfl (by decide)

/-- C9 counterexample: after a (true, 80) verdict the completion for
(task 1, participant 10) has `verified = true`; a subsequent (false, 80)
verdict is accepted and resets it to `false` — `verified` transitions back
from true to false. -/
theorem c9_counterexample_verified_reset :
    regAfterOneVerdict.map (fun s => (s.taskCompletions 1 10).verified)
      = Except.ok true
    ∧ (regAfterOneVerdict.bind fun s => verifyTaskCompletion s 2 1 10 false 80).map
        (fun s => (s.taskCompletions 1 10).verified) = Except.ok false := by
  exact ⟨rfl, rfl⟩

/-- C9 amended: `verifyTaskCompletion` overwrites the completion's `verified`
flag (and sybil score) with the delivered values on every accepted call; the
flag is not latched, so it follows the most recent verdict and in particular
can transition from true back to false. -/
theorem c9_verified_overwritten
    (s : TaskRegistryState) (sender taskId user : Nat) (v : Bool) (score : Nat)
    (hsender : sender = s.verificationOracle)
    (hc : (s.taskCompletions taskId user).completed = true) :
    ∃ s2, verifyTaskCompletion s sender taskId user v score = Except.ok s2
      ∧ (s2.taskCompletions taskId user).verified = v
      ∧ (s2.taskCompletions taskId user).sybilScore = score := by
  unfold verifyTaskCompletion
  rw [if_neg (by simp [hsender]), if_neg (by simp [hc])]
  by_cases hpay : (v : Prop) ∧ score ≥ (s.tasks taskId).sybilThreshold
  · rw [if_pos hpay]
    exact ⟨_, rfl, by simp [triggerPayout], by simp [triggerPayout]⟩
  · rw [if_neg hpay]
    exact ⟨_, rfl, by simp, by simp⟩

/-- C9 witness: the amended statement at the concrete state `regDone`
(completion exists for task 1, participant 10), with a false verdict. -/
theorem c9_witness :
    ∃ s2, verifyTaskCompletion regDone 2 1 10 false 30 = Except.ok s2
      ∧ (s2.taskCompletions 1 10).verified = false
      ∧ (s2.taskCompletions 1 10).sybilScore = 30 :=
  c9_verified_overwritten regDone 2 1 10 false 30 rfl (by decide)

/-- C4 counterexample: request 1 has category `OFFCHAIN_SOCIAL`, whose
registered verifier is oracle 20 — yet oracle 30, registered only for
`ONCHAIN_TRANSACTION`, delivers the verdict for request 1 successfully. The
authorization check is against the global `authorizedOracles` set, not
against the verifier registered for the request's category. -/
theorem c4_counterexample_cross_category_delivery :
    (gwWithRequest.verificationRequests 1).verificationType
        = VerificationType.OFFCHAIN_SOCIAL
    ∧ gwWithRequest.oracleAddresses VerificationType.OFFCHAIN_SOCIAL = 20
    ∧ (30 : Nat) ≠ 20
    ∧ (completeVerification gwWithRequest 500 500 1 true 60 "digest").map
        (fun s => (s.verificationRequests 1).processed) = Except.error
        "Only authorized oracles can complete verification"
    ∧ (completeVerification gwWithRequest 30 500 1 true 60 "digest").map
        (fun s => (s.verificationRequests 1).processed) = Except.ok true := by
  refine ⟨rfl, rfl, by decide, rfl, rfl⟩

/-- C4 amended: `completeVerification` rejects a delivery with the
authorization error exactly when the caller is not in the global
`authorizedOracles` capability set; membership in that set is the whole
check — the request's category and the per-category `oracleAddresses` table
play no part, so any authorized oracle may deliver verdicts for requests of
every category. -/
theorem c4_authorization_is_global
    (s : VerifierGatewayState) (sender timestamp requestId : Nat) (v : Bool)
    (score : Nat) (ph : String) :
    completeVerification s sender timestamp requestId v score ph
        = Except.error "Only authorized oracles can complete verification"
      ↔ s.authorizedOracles sender = false := by
  unfold completeVerification
  by_cases hauth : s.authorizedOracles sender
  · rw [if_neg (by simp [hauth])]
    constructor
    · intro h
      split_ifs at h
      all_goals exact absurd (Except.error.inj h) (by decide)
    · intro h
      rw [hauth] at h
      cases h
  · rw [if_pos (by simpa using hauth)]
    simp [Bool.not_eq_true] at hauth
    simp [hauth]

/-- C5 counterexample: in `gwReady` no request was ever allocated
(`nextRequestId` is still 1), yet delivery for request id 0 passes the
`requestId < nextRequestId` bounds check, is accepted, and marks the
never-allocated slot 0 processed — instead of failing with the
unknown-request error the claim demands. -/
theorem c5_counterexample_unallocated_id_accepted :
    gwReady.nextRequestId = 1
    ∧ (completeVerification gwReady 20 500 0 true 60 "digest").map
        (fun s => (s.verificationRequests 0).processed) = Except.ok true := by
  exact ⟨rfl, rfl⟩

/-- C5 amended: for an authorized caller, delivery on an already-processed
request id always fails with the already-processed error (and, the revert
model being all-or-nothing, no state changes on any failure); an id at or
above `nextRequestId` fails with the invalid-request error; and a risk score
above 100 on a live request is rejected with the score error. However the
bounds check `requestId < nextRequestId` also admits the never-allocated id 0
(ids are issued from 1), so "id never allocated" and "rejected as unknown"
do not coincide. -/
theorem c5_delivery_guards
    (s : VerifierGatewayState) (sender timestamp requestId : Nat) (v : Bool)
    (score : Nat) (ph : String)
    (hauth : s.authorizedOracles sender = true) :
    ((s.verificationRequests requestId).processed = true →
      requestId < s.nextRequestId →
      completeVerification s sender timestamp requestId v score ph
        = Except.error "Request already processed")
    ∧ (¬ requestId < s.nextRequestId →
      completeVerification s sender timestamp requestId v score ph
        = Except.error "Invalid request ID")
    ∧ (requestId < s.nextRequestId →
      (s.verificationRequests requestId).processed = false → score > 100 →
      completeVerification s sender timestamp requestId v score ph
        = Except.error "Invalid sybil score") := by
  unfold completeVerification
  rw [if_neg (by simp [hauth])]
  refine ⟨fun hproc hlt => ?_, fun hnlt => ?_, fun hlt hnproc hscore => ?_⟩
  · rw [if_neg (by simpa using hlt), if_pos hproc]
  · rw [if_pos (by simpa using hnlt)]
  · rw [if_neg (by simpa using hlt), if_neg (by simp [hnproc]),
      if_pos (by omega)]

/-- C5 witness: in `gwProcessed`, request 1 is processed and oracle 20 is
authorized; redelivery fails with the already-processed error. -/
theorem c5_witness :
    (gwProcessed.verificationRequests 1).processed = true
    ∧ completeVerification gwProcessed 20 600 1 true 60 "again"
        = Except.error "Request already processed" :=
  ⟨rfl, (c5_delivery_guards gwProcessed 20 600 1 true 60 "again" rfl).1 rfl
    (by decide)⟩

/-- Helper: the completer and platform shares together stay strictly below
the gross amount (they use only 7000 of 10000 basis points). -/
theorem completer_plus_platform_lt_gross (g : Nat) (hg : 0 < g) :
    g * TASK_COMPLETER_PERCENT / 10000 + g * PLATFORM_FEE_PERCENT / 10000 < g := by
  simp only [TASK_COMPLETER_PERCENT, PLATFORM_FEE_PERCENT]
  have a1 : g * 6000 / 10000 * 10000 ≤ g * 6000 := Nat.div_mul_le_self _ _
  have a2 : g * 1000 / 10000 * 10000 ≤ g * 1000 := Nat.div_mul_le_self _ _
  have h1 : g * 6000 / 10000 + g * 1000 / 10000 ≤ g * 7000 / 10000 := by
    rw [Nat.le_div_iff_mul_le (by norm_num : (0:Nat) < 10000), add_mul]
    omega
  have h2 : g * 7000 / 10000 < g := by
    rw [Nat.div_lt_iff_lt_mul (by norm_num : (0:Nat) < 10000)]
    omega
  omega

/-- Helper: each basis-point share of a gross amount of at least 10 units is
positive, for any weight of at least 1000 bp. -/
theorem share_pos (g w : Nat) (hg : 10 ≤ g) (hw : 1000 ≤ w) :
    0 < g * w / 10000 := by
  refine Nat.div_pos ?_ (by norm_num)
  calc (10000 : Nat) = 10 * 1000 := by norm_num
  _ ≤ g * w := Nat.mul_le_mul hg hw

/-- C6 amended: when the completer has no referral record (the
zero-initialised `ReferralData`), `distributePayout` transfers only the
completer share and the fixed platform fee; the direct and indirect shares
are not transferred to anyone — in particular the per-tier indirect shares of
the absent tiers are not added to the platform fee — so the total disbursed
is `g*6000/10000 + g*1000/10000`, strictly less than the gross reward, and
the withheld remainder simply stays in the pool. -/
theorem c6_absent_tier_shares_withheld
    (s : PayoutSplitterState) (sender taskCompleter tid totalReward token : Nat)
    (hsend : sender = s.taskRegistry)
    (htok : s.supportedTokens token = true)
    (hbal : totalReward ≤ s.poolBalance token)
    (hg : 10 ≤ totalReward)
    (hnoref : s.referrals taskCompleter = emptyReferralData) :
    (distributePayout s sender taskCompleter tid totalReward token).map Prod.snd
        = Except.ok
          [(taskCompleter, totalReward * TASK_COMPLETER_PERCENT / 10000),
           (s.platformWallet, totalReward * PLATFORM_FEE_PERCENT / 10000)]
      ∧ totalDisbursed
          [(taskCompleter, totalReward * TASK_COMPLETER_PERCENT / 10000),
           (s.platformWallet, totalReward * PLATFORM_FEE_PERCENT / 10000)]
          < totalReward
      ∧ (distributePayout s sender taskCompleter tid totalReward token).map
          (fun p => p.1.poolBalance token)
          = Except.ok (s.poolBalance token
              - totalReward * TASK_COMPLETER_PERCENT / 10000
              - totalReward * PLATFORM_FEE_PERCENT / 10000) := by
  have h0 : 0 < totalReward := by omega
  have hlt := completer_plus_platform_lt_gross totalReward h0
  have ha_pos : 0 < totalReward * TASK_COMPLETER_PERCENT / 10000 :=
    share_pos totalReward _ hg (by norm_num [TASK_COMPLETER_PERCENT])
  have hi_pos : 0 < totalReward * INDIRECT_REFERRER_PERCENT / 10000 :=
    share_pos totalReward _ hg (by norm_num [INDIRECT_REFERRER_PERCENT])
  have hp_pos : 0 < totalReward * PLATFORM_FEE_PERCENT / 10000 :=
    share_pos totalReward _ hg (by norm_num [PLATFORM_FEE_PERCENT])
  have ha_le : totalReward * TASK_COMPLETER_PERCENT / 10000 ≤ s.poolBalance token := by
    omega
  have hp_le : totalReward * PLATFORM_FEE_PERCENT / 10000
      ≤ s.poolBalance token - totalReward * TASK_COMPLETER_PERCENT / 10000 := by
    omega
  refine ⟨?_, ?_, ?_⟩
  · simp only [distributePayout, calculateDistribution, hnoref, emptyReferralData]
    rw [if_neg (by simp [hsend]), if_neg (by simp [htok]), if_neg (by omega),
      if_neg (by simpa using hbal)]
    simp [poolTransfer, payIndirectLevels, creditTotal, Except.map, Except.bind,
      ha_pos, hi_pos, hp_pos, ha_le, hp_le]
  · simp only [totalDisbursed, List.map_cons, List.map_nil, List.sum_cons,
      List.sum_nil, Nat.add_zero]
    omega
  · simp only [distributePayout, calculateDistribution, hnoref, emptyReferralData]
    rw [if_neg (by simp [hsend]), if_neg (by simp [htok]), if_neg (by omega),
      if_neg (by simpa using hbal)]
    simp [poolTransfer, payIndirectLevels, creditTotal, Except.map, Except.bind,
      ha_pos, hi_pos, hp_pos, ha_le, hp_le]

/-- C6 counterexample: settling a gross reward of 10000 for completer 42, who
has no referrers, disburses only 7000 units (6000 to the completer, 1000 to
the platform) — the absent referrer tiers' shares are withheld in the pool,
not moved to the platform fee, so the total disbursed is not the gross
reward. -/
theorem c6_counterexample_disbursed_lt_gross :
    (distributePayout splitterReady 7 42 3 10000 5).map
        (fun p => totalDisbursed p.2) = Except.ok 7000
    ∧ (7000 : Nat) ≠ 10000 := by
  exact ⟨rfl, by decide⟩

/-- C6 witness: the amended statement at the concrete splitter state, gross
reward 10000 in token 5 for completer 42. -/
theorem c6_witness :
    (distributePayout splitterReady 7 42 3 10000 5).map Prod.snd
        = Except.ok
          [(42, 10000 * TASK_COMPLETER_PERCENT / 10000),
           (splitterReady.platformWallet, 10000 * PLATFORM_FEE_PERCENT / 10000)]
      ∧ totalDisbursed
          [(42, 10000 * TASK_COMPLETER_PERCENT / 10000),
           (splitterReady.platformWallet, 10000 * PLATFORM_FEE_PERCENT / 10000)]
          < 10000
      ∧ (distributePayout splitterReady 7 42 3 10000 5).map
          (fun p => p.1.poolBalance 5)
          = Except.ok (splitterReady.poolBalance 5
              - 10000 * TASK_COMPLETER_PERCENT / 10000
              - 10000 * PLATFORM_FEE_PERCENT / 10000) :=
  c6_absent_tier_shares_withheld splitterReady 7 42 3 10000 5 rfl rfl
    (by decide) (by decide) rfl

end Homare
